import Mathlib

/-!
A verification development for the signed-object protocol of the `crypto`
package (`signatures.go`): key sizes, key-pair generation, hash signing and
verification, and the length-prefixed signed-object codec
(`WriteSignedObject` / `ReadSignedObject` / `SignObject` / `VerifyObject`).

The ed25519 primitive, the binary Encoder/Decoder and the digest function
are external collaborators of the file under study; they are modelled from
the specification as opaque operations with the documented size and framing
contracts. Go byte arrays become lists of natural numbers with explicit
length side conditions; the mutation of the reader's target object through
a pointer becomes explicit state passing.
-/

namespace SiaCrypto

/-- `EntropySize`: the amount of entropy necessary for key generation, in
bytes (`ed25519.EntropySize`). -/
def EntropySize : Nat := 32

/-- `PublicKeySize`: the size of public keys in bytes
(`ed25519.PublicKeySize`). -/
def PublicKeySize : Nat := 32

/-- `SecretKeySize`: the size of secret keys in bytes
(`ed25519.SecretKeySize`). -/
def SecretKeySize : Nat := 64

/-- `SignatureSize`: the size of signatures in bytes
(`ed25519.SignatureSize`). -/
def SignatureSize : Nat := 64

/-- A byte is modelled as a natural number; fixed-size Go byte arrays become
lists with a length side condition. -/
abbrev Byte := Nat

/-- `PublicKey`: an object that can be used to verify signatures
(`[PublicKeySize]byte`). -/
abbrev PublicKey := List Byte

/-- `SecretKey`: can be used to sign data for the corresponding public key
(`[SecretKeySize]byte`). -/
abbrev SecretKey := List Byte

/-- `Signature`: proves that data was signed by the owner of a particular
public key's corresponding secret key (`[SignatureSize]byte`). -/
abbrev Signature := List Byte

/-- `Hash`: the fixed-size 32-byte digest type of the `crypto` package. -/
abbrev Hash := List Byte

/-- Error kinds surfaced by this layer: `framing` for malformed or
truncated length-prefixed stream data, `invalidSignature` for the single
undifferentiated authentication failure (`errInvalidSignature` in the
source), and `decodeFailed` for a payload that verified but could not be
decoded into the target type. -/
inductive Err where
  | framing
  | invalidSignature
  | decodeFailed
  deriving DecidableEq

/-- Modelled from the spec: the external ed25519 signature algorithm, an
opaque primitive with documented fixed input/output sizes. `Sign sk msg`
produces a signature over `msg` with secret key `sk`; `Verify pk msg sig`
is the verification predicate; `GenerateDeterministic entropy` derives a
key pair as a pure function of a 32-byte seed. -/
structure SigScheme where
  Sign : SecretKey → List Byte → Signature
  Verify : PublicKey → List Byte → Signature → Bool
  GenerateDeterministic : List Byte → SecretKey × PublicKey

/-- Little-endian byte decomposition: `leBytes k n` is the `k`-byte
little-endian representation of `n % 256 ^ k`. -/
def leBytes : Nat → Nat → List Byte
  | 0, _ => []
  | k + 1, n => n % 256 :: leBytes k (n / 256)

/-- The value of a little-endian byte list. -/
def leVal : List Byte → Nat
  | [] => 0
  | b :: rest => b + 256 * leVal rest

/-- Modelled from the spec: `HashBytes`, the digest function of the
`crypto` package (defined in a sibling file of the one under study). It
maps an arbitrary byte sequence deterministically to a 32-byte digest; the
protocol relies only on determinism and the fixed size, never on collision
resistance, so a structurally simple digest suffices. -/
def HashBytes (b : List Byte) : Hash := leBytes 32 (leVal b)

/-- Modelled from the spec: the Encoder's length-prefixed framing contract.
`EncodeAll encObj sig` emits two consecutive length-prefixed fields, each
preceded by its byte length as an 8-byte little-endian integer. -/
def EncodeAll (encObj sig : List Byte) : List Byte :=
  leBytes 8 encObj.length ++ (encObj ++ (leBytes 8 sig.length ++ sig))

/-- Modelled from the spec: reading one length-prefixed field from a byte
stream, returning the field and the remaining stream, or `none` when the
stream is malformed or truncated. -/
def readField (s : List Byte) : Option (List Byte × List Byte) :=
  if 8 ≤ s.length then
    let n := leVal (s.take 8)
    let rest := s.drop 8
    if n ≤ rest.length then some (rest.take n, rest.drop n) else none
  else none

/-- Modelled from the spec: the Decoder's `DecodeAll` reading the two
length-prefixed fields of a signed frame — the encoded object bytes and the
fixed-size signature; a signature field whose declared length differs from
`SignatureSize` is malformed. Trailing stream bytes are not consumed. -/
def DecodeAll (s : List Byte) : Option (List Byte × Signature) :=
  match readField s with
  | none => none
  | some (encObj, rest) =>
    match readField rest with
    | none => none
    | some (sig, _) =>
      if sig.length = SignatureSize then some (encObj, sig) else none

/-- Modelled from the spec: `stdKeyGen.generateDeterministic`, defined in a
sibling file of the `crypto` package; it derives a key pair as a pure
function of the given entropy via the underlying algorithm. -/
def stdKeyGenDeterministic (E : SigScheme) (entropy : List Byte) :
    SecretKey × PublicKey :=
  E.GenerateDeterministic entropy

/-- Modelled from the spec: `stdKeyGen.generate`, which draws `EntropySize`
bytes of fresh entropy from the secure source and derives a key pair from
it; the drawn entropy is made an explicit argument, and with the entropy
supplied no failure remains. -/
def stdKeyGenGenerate (E : SigScheme) (freshEntropy : List Byte) :
    (SecretKey × PublicKey) × Option Err :=
  (E.GenerateDeterministic freshEntropy, none)

/-- `GenerateKeyPair` creates a public-secret keypair (`signatures.go`
lines 45-49), with the entropy drawn by the generator made explicit. -/
def GenerateKeyPair (E : SigScheme) (freshEntropy : List Byte) :
    (SecretKey × PublicKey) × Option Err :=
  stdKeyGenGenerate E freshEntropy

/-- `GenerateKeyPairDeterministic` generates keys deterministically using
the input entropy (`signatures.go` lines 51-55). -/
def GenerateKeyPairDeterministic (E : SigScheme) (entropy : List Byte) :
    SecretKey × PublicKey :=
  stdKeyGenDeterministic E entropy

/-- `SignHash` signs a message using a secret key (`signatures.go` lines
57-62): the primitive's signature is returned together with a `nil`
error. -/
def SignHash (E : SigScheme) (data : Hash) (sk : SecretKey) :
    Signature × Option Err :=
  (E.Sign sk data, none)

/-- `VerifyHash` uses a public key and input data to verify a signature
(`signatures.go` lines 64-73): `errInvalidSignature` when the primitive's
predicate fails, `nil` otherwise. -/
def VerifyHash (E : SigScheme) (data : Hash) (pk : PublicKey)
    (sig : Signature) : Option Err :=
  if E.Verify pk data sig then none else some Err.invalidSignature

/-- `WriteSignedObject` (`signatures.go` lines 75-80): encode the object,
sign the digest of the encoding, and emit the encoded object and the
signature as two length-prefixed fields. The bytes written to the
destination stream are returned; `enc` is the external Encoder's `Marshal`
for the object's type. -/
def WriteSignedObject {α : Type} (E : SigScheme) (enc : α → List Byte)
    (obj : α) (sk : SecretKey) : List Byte :=
  let encObj := enc obj
  let sig := (SignHash E (HashBytes encObj) sk).1
  EncodeAll encObj sig

/-- `ReadSignedObject` (`signatures.go` lines 82-98): read the two
length-prefixed fields, verify the signature over the digest of the encoded
object, then decode the object. The Go function mutates its target `obj`
through a pointer; here the target is passed and returned explicitly, and
`dec` is the external Decoder's `Unmarshal` for the target's type,
returning the updated target and a possible error. The body uses `maxLen`
exactly as the source does. -/
def ReadSignedObject {α : Type} (E : SigScheme)
    (dec : List Byte → α → α × Option Err) (r : List Byte) (obj : α)
    (maxLen : Nat) (pk : PublicKey) : α × Option Err :=
  match DecodeAll r with
  | none => (obj, some Err.framing)
  | some (encObj, sig) =>
    match VerifyHash E (HashBytes encObj) pk sig with
    | some e => (obj, some e)
    | none => dec encObj obj

/-- `SignObject` (`signatures.go` lines 100-105): write the signed object
into an in-memory buffer and return its bytes. -/
def SignObject {α : Type} (E : SigScheme) (enc : α → List Byte) (obj : α)
    (sk : SecretKey) : List Byte :=
  WriteSignedObject E enc obj sk

/-- `VerifyObject` (`signatures.go` lines 107-112): read the signed object
back from an in-memory buffer, with `maxLen` set to `^uint64(0)`. -/
def VerifyObject {α : Type} (E : SigScheme)
    (dec : List Byte → α → α × Option Err) (data : List Byte) (obj : α)
    (pk : PublicKey) : α × Option Err :=
  ReadSignedObject E dec data obj (2 ^ 64 - 1) pk

/-- The `PublicKey` accessor on a secret key (`signatures.go` lines
114-118): `copy(pk[:], sk[SecretKeySize-PublicKeySize:])` — the suffix is
copied into a fresh zero-initialised fixed-size public key. -/
def SecretKey.PublicKey (sk : SecretKey) : List Byte :=
  let src := sk.drop (SecretKeySize - PublicKeySize)
  src.take PublicKeySize ++ List.replicate (PublicKeySize - src.length) 0

/-- A concrete, cryptographically meaningless instance of the modelled
primitive, used to evaluate the protocol on concrete inputs: a signature is
the public half of the secret key followed by the digest of the message,
verification recomputes it, and a key pair doubles the seed. -/
def toyScheme : SigScheme where
  Sign := fun sk msg => sk.drop 32 ++ HashBytes msg
  Verify := fun pk msg sig => sig == pk ++ HashBytes msg
  GenerateDeterministic := fun e => (e ++ e, e)

/-- A concrete Encoder for natural numbers used on concrete inputs: the
8-byte little-endian encoding. -/
def encNat (n : Nat) : List Byte := leBytes 8 n

/-- The concrete Decoder matching `encNat`; on a malformed payload the
target is returned as given together with a decode error. -/
def decNat (s : List Byte) (obj : Nat) : Nat × Option Err :=
  if s.length = 8 then (leVal s, none) else (obj, some Err.decodeFailed)

/-- The all-zero 32-byte seed. -/
def zeroSeed : List Byte := List.replicate 32 0

/-- The secret key derived from the all-zero seed by the concrete
instance. -/
def skZero : SecretKey := (toyScheme.GenerateDeterministic zeroSeed).1

/-- The public key derived from the all-zero seed by the concrete
instance. -/
def pkZero : PublicKey := (toyScheme.GenerateDeterministic zeroSeed).2

theorem leBytes_length (k n : Nat) : (leBytes k n).length = k := by
  induction k generalizing n with
  | zero => simp [leBytes]
  | succ k ih => simp [leBytes, ih]

theorem leVal_leBytes : ∀ (k n : Nat), n < 256 ^ k → leVal (leBytes k n) = n
  | 0, n, h => by
    simp [leBytes, leVal]
    omega
  | k + 1, n, h => by
    have hlt : n < 256 * 256 ^ k := by
      rw [pow_succ] at h
      calc n < 256 ^ k * 256 := h
        _ = 256 * 256 ^ k := Nat.mul_comm _ _
    have hdiv : n / 256 < 256 ^ k := Nat.div_lt_of_lt_mul hlt
    simp [leBytes, leVal, leVal_leBytes k (n / 256) hdiv]
    omega

theorem readField_append (f t : List Byte) (h : f.length < 2 ^ 64) :
    readField (leBytes 8 f.length ++ (f ++ t)) = some (f, t) := by
  have hlen : (leBytes 8 f.length).length = 8 := leBytes_length 8 f.length
  have htake : ((leBytes 8 f.length) ++ (f ++ t)).take 8 = leBytes 8 f.length :=
    List.take_left' hlen
  have hdrop : ((leBytes 8 f.length) ++ (f ++ t)).drop 8 = f ++ t :=
    List.drop_left' hlen
  have hval : leVal (leBytes 8 f.length) = f.length := by
    refine leVal_leBytes 8 f.length ?_
    have h256 : (256 : Nat) ^ 8 = 2 ^ 64 := by norm_num
    omega
  have h8 : 8 ≤ ((leBytes 8 f.length) ++ (f ++ t)).length := by
    simp [hlen]
  have hle : f.length ≤ (f ++ t).length := by simp
  simp [readField, htake, hdrop, hval, hlen, hle, List.take_left, List.drop_left]

theorem decodeAll_encodeAll (encObj sig : List Byte)
    (h : encObj.length < 2 ^ 64) (hsig : sig.length = SignatureSize) :
    DecodeAll (EncodeAll encObj sig) = some (encObj, sig) := by
  have h1 : readField (EncodeAll encObj sig)
      = some (encObj, leBytes 8 sig.length ++ sig) :=
    readField_append encObj _ h
  have hsigLt : sig.length < 2 ^ 64 := by
    rw [hsig]
    norm_num [SignatureSize]
  have h2 : readField (leBytes 8 sig.length ++ sig) = some (sig, []) := by
    have h3 := readField_append sig [] hsigLt
    simpa using h3
  simp only [DecodeAll, h1, h2]
  simp [hsig]

theorem publicKey_eq_drop (sk : SecretKey) (h : sk.length = SecretKeySize) :
    SecretKey.PublicKey sk = sk.drop (SecretKeySize - PublicKeySize) := by
  have hd : (sk.drop (SecretKeySize - PublicKeySize)).length = PublicKeySize := by
    simp [h, SecretKeySize, PublicKeySize]
  simp [SecretKey.PublicKey, hd, List.take_of_length_le (le_of_eq hd),
    Nat.sub_self, List.append_nil]

theorem readSignedObject_writeSignedObject_core {α : Type} (E : SigScheme)
    (enc : α → List Byte) (dec : List Byte → α → α × Option Err)
    (v obj : α) (sk : SecretKey) (pk : PublicKey) (maxLen : Nat)
    (hsigLen : (E.Sign sk (HashBytes (enc v))).length = SignatureSize)
    (hverify : E.Verify pk (HashBytes (enc v)) (E.Sign sk (HashBytes (enc v))) = true)
    (hdec : dec (enc v) obj = (v, none))
    (hlen : (enc v).length < 2 ^ 64) :
    ReadSignedObject E dec (WriteSignedObject E enc v sk) obj maxLen pk = (v, none) := by
  have hw : WriteSignedObject E enc v sk
      = EncodeAll (enc v) (E.Sign sk (HashBytes (enc v))) := rfl
  have hframe := decodeAll_encodeAll (enc v) (E.Sign sk (HashBytes (enc v))) hlen hsigLen
  rw [hw]
  simp [ReadSignedObject, hframe, VerifyHash, hverify, hdec]

/-- C1: for every reader source, public key and signature, when the parsed
frame's signature fails verification, `ReadSignedObject` returns the single
`errInvalidSignature` with the target unchanged, and it does so for every
possible decode function and every target — the decode of `encObj` is never
attempted. -/
theorem readSignedObject_verify_gates_decode {α : Type} (E : SigScheme)
    (r : List Byte) (maxLen : Nat) (pk : PublicKey) (encObj sig : List Byte)
    (hframe : DecodeAll r = some (encObj, sig))
    (hfail : E.Verify pk (HashBytes encObj) sig = false) :
    ∀ (dec : List Byte → α → α × Option Err) (obj : α),
      ReadSignedObject E dec r obj maxLen pk = (obj, some Err.invalidSignature) := by
  intro dec obj
  simp [ReadSignedObject, hframe, VerifyHash, hfail]

/-- Witness for C1: a concrete frame carrying an 8-byte payload and a wrong
signature is rejected as `invalidSignature` with the target left at 99. -/
theorem readSignedObject_verify_gates_decode_witness :
    ReadSignedObject toyScheme decNat (EncodeAll (encNat 5) (List.replicate 64 7))
      99 1000 pkZero = (99, some Err.invalidSignature) :=
  readSignedObject_verify_gates_decode toyScheme
    (EncodeAll (encNat 5) (List.replicate 64 7)) 1000 pkZero
    (encNat 5) (List.replicate 64 7) (by decide) (by decide) decNat 99

/-- C2 (divergence exhibit): at the concrete stream produced by
`WriteSignedObject` for a payload whose encoding is 8 bytes long,
`ReadSignedObject` called with `maxLen = 0` — strictly smaller than the
declared encoded-object length 8 — does not fail with a framing error: the
body never consults `maxLen`, so it parses the frame, verifies the
signature and decodes the object successfully. -/
theorem readSignedObject_ignores_maxLen :
    (encNat 5).length = 8
    ∧ ReadSignedObject toyScheme decNat
        (WriteSignedObject toyScheme encNat 5 skZero) 0 0 pkZero = (5, none) :=
  ⟨rfl, rfl⟩

/-- C3: stream round-trip — for every encodable value `v`, every key pair
with `pk` derived from `sk` (valid for the underlying primitive at this
digest) and every `maxLen` at least the length of the encoding of `v`,
reading back the bytes produced by `WriteSignedObject` succeeds and yields
`v` with a `nil` error. -/
theorem writeSignedObject_readSignedObject_roundtrip {α : Type} (E : SigScheme)
    (enc : α → List Byte) (dec : List Byte → α → α × Option Err)
    (v obj : α) (sk : SecretKey) (pk : PublicKey) (maxLen : Nat)
    (hpk : pk = SecretKey.PublicKey sk)
    (hsigLen : (E.Sign sk (HashBytes (enc v))).length = SignatureSize)
    (hverify : E.Verify pk (HashBytes (enc v)) (E.Sign sk (HashBytes (enc v))) = true)
    (hdec : dec (enc v) obj = (v, none))
    (hlen : (enc v).length < 2 ^ 64)
    (hmax : (enc v).length ≤ maxLen) :
    ReadSignedObject E dec (WriteSignedObject E enc v sk) obj maxLen pk = (v, none) :=
  readSignedObject_writeSignedObject_core E enc dec v obj sk pk maxLen
    hsigLen hverify hdec hlen

/-- Witness for C3: writing the value 5 under the all-zero-seed key pair and
reading it back with `maxLen = 8` yields 5 with no error. -/
theorem writeSignedObject_readSignedObject_roundtrip_witness :
    ReadSignedObject toyScheme decNat
      (WriteSignedObject toyScheme encNat 5 skZero) 0 8 pkZero = (5, none) :=
  writeSignedObject_readSignedObject_roundtrip toyScheme encNat decNat 5 0
    skZero pkZero 8 (by decide) (by decide) (by decide) (by decide)
    (by decide) (by decide)

/-- C4: buffer round-trip — for every encodable value `v` and every key
pair with `pk` derived from `sk` (valid for the underlying primitive at
this digest), `VerifyObject` applied to the buffer produced by `SignObject`
succeeds and yields `v` with a `nil` error. -/
theorem signObject_verifyObject_roundtrip {α : Type} (E : SigScheme)
    (enc : α → List Byte) (dec : List Byte → α → α × Option Err)
    (v obj : α) (sk : SecretKey) (pk : PublicKey)
    (hpk : pk = SecretKey.PublicKey sk)
    (hsigLen : (E.Sign sk (HashBytes (enc v))).length = SignatureSize)
    (hverify : E.Verify pk (HashBytes (enc v)) (E.Sign sk (HashBytes (enc v))) = true)
    (hdec : dec (enc v) obj = (v, none))
    (hlen : (enc v).length < 2 ^ 64) :
    VerifyObject E dec (SignObject E enc v sk) obj pk = (v, none) :=
  readSignedObject_writeSignedObject_core E enc dec v obj sk pk (2 ^ 64 - 1)
    hsigLen hverify hdec hlen

/-- Witness for C4: signing the value 5 into a buffer under the
all-zero-seed key pair and verifying the buffer yields 5 with no error. -/
theorem signObject_verifyObject_roundtrip_witness :
    VerifyObject toyScheme decNat (SignObject toyScheme encNat 5 skZero)
      0 pkZero = (5, none) :=
  signObject_verifyObject_roundtrip toyScheme encNat decNat 5 0 skZero pkZero
    (by decide) (by decide) (by decide) (by decide) (by decide)

/-- C5: key derivation consistency — for a key pair produced by either
generator from entropy `e`, given the algorithm's structural invariant that
the produced secret key is `SecretKeySize` bytes whose last
`PublicKeySize` bytes are the produced public key, the `PublicKey` accessor
on the secret key returns exactly that public key. -/
theorem generated_keyPair_publicKey_consistent (E : SigScheme) (e : List Byte)
    (hlen : ((E.GenerateDeterministic e).1).length = SecretKeySize)
    (hsuffix : ((E.GenerateDeterministic e).1).drop (SecretKeySize - PublicKeySize)
      = (E.GenerateDeterministic e).2) :
    SecretKey.PublicKey (GenerateKeyPairDeterministic E e).1
      = (GenerateKeyPairDeterministic E e).2
    ∧ SecretKey.PublicKey ((GenerateKeyPair E e).1).1
      = ((GenerateKeyPair E e).1).2 :=
  ⟨(publicKey_eq_drop _ hlen).trans hsuffix,
   (publicKey_eq_drop _ hlen).trans hsuffix⟩

/-- Witness for C5: for the all-zero seed, both generators produce a pair
whose secret key projects to the produced public key. -/
theorem generated_keyPair_publicKey_consistent_witness :
    SecretKey.PublicKey (GenerateKeyPairDeterministic toyScheme zeroSeed).1
      = (GenerateKeyPairDeterministic toyScheme zeroSeed).2
    ∧ SecretKey.PublicKey ((GenerateKeyPair toyScheme zeroSeed).1).1
      = ((GenerateKeyPair toyScheme zeroSeed).1).2 :=
  generated_keyPair_publicKey_consistent toyScheme zeroSeed (by decide) (by decide)

/-- C6: determinism of deterministic generation —
`GenerateKeyPairDeterministic` is a pure function of its entropy argument,
with no failure path in its result type: two calls on equal seeds yield
identical `(SecretKey, PublicKey)` pairs. -/
theorem generateKeyPairDeterministic_pure (E : SigScheme) (e₁ e₂ : List Byte)
    (h : e₁ = e₂) :
    GenerateKeyPairDeterministic E e₁ = GenerateKeyPairDeterministic E e₂ := by
  rw [h]

/-- Witness for C6: two calls on the all-zero seed agree. -/
theorem generateKeyPairDeterministic_pure_witness :
    GenerateKeyPairDeterministic toyScheme zeroSeed
      = GenerateKeyPairDeterministic toyScheme zeroSeed :=
  generateKeyPairDeterministic_pure toyScheme zeroSeed zeroSeed rfl

/-- C7: for every digest and every secret key, `SignHash` returns the
primitive's signature together with a `nil` error — signing has no error
path at this layer. -/
theorem signHash_no_error (E : SigScheme) (data : Hash) (sk : SecretKey) :
    (SignHash E data sk).2 = none ∧ (SignHash E data sk).1 = E.Sign sk data :=
  ⟨rfl, rfl⟩

/-- C8: for every digest, public key and signature, `VerifyHash` returns
either success or the single undifferentiated `errInvalidSignature`; no
other error value is ever returned. -/
theorem verifyHash_single_error_kind (E : SigScheme) (data : Hash)
    (pk : PublicKey) (sig : Signature) :
    VerifyHash E data pk sig = none
    ∨ VerifyHash E data pk sig = some Err.invalidSignature := by
  cases h : E.Verify pk data sig
  · right
    simp [VerifyHash, h]
  · left
    simp [VerifyHash, h]

/-- C9: for every `SecretKeySize`-byte secret key, whether or not it came
from a generator, the `PublicKey` accessor is a pure structural projection:
it returns exactly the bytes at indices `SecretKeySize - PublicKeySize`
through `SecretKeySize - 1`, has length `PublicKeySize`, and performs no
recomputation (index `i` of the result is index
`SecretKeySize - PublicKeySize + i` of the key). -/
theorem secretKey_publicKey_is_suffix (sk : SecretKey)
    (h : sk.length = SecretKeySize) :
    SecretKey.PublicKey sk = sk.drop (SecretKeySize - PublicKeySize)
    ∧ (SecretKey.PublicKey sk).length = PublicKeySize
    ∧ ∀ i : Nat, (SecretKey.PublicKey sk)[i]?
        = sk[(SecretKeySize - PublicKeySize) + i]? := by
  have h1 := publicKey_eq_drop sk h
  refine ⟨h1, ?_, ?_⟩
  · rw [h1]
    simp [h, SecretKeySize, PublicKeySize]
  · intro i
    rw [h1]
    exact List.getElem?_drop sk (SecretKeySize - PublicKeySize) i

/-- Witness for C9: the accessor on the all-zero-seed secret key is the
32-byte suffix projection. -/
theorem secretKey_publicKey_is_suffix_witness :
    SecretKey.PublicKey skZero = skZero.drop (SecretKeySize - PublicKeySize)
    ∧ (SecretKey.PublicKey skZero).length = PublicKeySize :=
  ⟨(secretKey_publicKey_is_suffix skZero (by decide)).1,
   (secretKey_publicKey_is_suffix skZero (by decide)).2.1⟩

/-- C10: whenever `ReadSignedObject` fails in the framing of the two
length-prefixed fields or in signature verification, the caller's target is
returned unchanged; the target is written only by the final decode step,
which runs exactly when framing and verification both succeed. -/
theorem readSignedObject_early_error_preserves_target {α : Type}
    (E : SigScheme) (dec : List Byte → α → α × Option Err) (r : List Byte)
    (obj : α) (maxLen : Nat) (pk : PublicKey) :
    (DecodeAll r = none →
      ReadSignedObject E dec r obj maxLen pk = (obj, some Err.framing))
    ∧ (∀ encObj sig, DecodeAll r = some (encObj, sig) →
        VerifyHash E (HashBytes encObj) pk sig = some Err.invalidSignature →
        ReadSignedObject E dec r obj maxLen pk = (obj, some Err.invalidSignature))
    ∧ (∀ encObj sig, DecodeAll r = some (encObj, sig) →
        VerifyHash E (HashBytes encObj) pk sig = none →
        ReadSignedObject E dec r obj maxLen pk = dec encObj obj) := by
  refine ⟨?_, ?_, ?_⟩
  · intro h
    simp [ReadSignedObject, h]
  · intro encObj sig h1 h2
    simp [ReadSignedObject, h1, h2]
  · intro encObj sig h1 h2
    simp [ReadSignedObject, h1, h2]

/-- Witness for C10: on an empty stream the target 7 is preserved under a
framing error; on a frame with a wrong signature it is preserved under
`invalidSignature`; on a correctly signed frame the result is exactly the
decode step applied to the target. -/
theorem readSignedObject_early_error_preserves_target_witness :
    ReadSignedObject toyScheme decNat [] 7 3 pkZero = (7, some Err.framing)
    ∧ ReadSignedObject toyScheme decNat
        (EncodeAll (encNat 6) (List.replicate 64 9)) 7 3 pkZero
        = (7, some Err.invalidSignature)
    ∧ ReadSignedObject toyScheme decNat
        (WriteSignedObject toyScheme encNat 6 skZero) 7 3 pkZero
        = decNat (encNat 6) 7 :=
  ⟨(readSignedObject_early_error_preserves_target toyScheme decNat [] 7 3
      pkZero).1 (by decide),
   (readSignedObject_early_error_preserves_target toyScheme decNat
      (EncodeAll (encNat 6) (List.replicate 64 9)) 7 3 pkZero).2.1
      (encNat 6) (List.replicate 64 9) (by decide) (by decide),
   (readSignedObject_early_error_preserves_target toyScheme decNat
      (WriteSignedObject toyScheme encNat 6 skZero) 7 3 pkZero).2.2
      (encNat 6) (toyScheme.Sign skZero (HashBytes (encNat 6)))
      (by decide) (by decide)⟩

end SiaCrypto
